import Mathlib

/-!
Shallow embedding of the `moon` repository's two launcher scripts,
`src/build.py` and `src/check.py`.

Each script reads `sys.argv`, branches on `sys.platform`, overwrites
`args[0]` with a fixed relative script path, and runs
`subprocess.call(args, cwd=".")`.  On an unrecognised platform it calls
`sys.exit()` (which terminates the process with status 0) before touching
`args`.  The return value of `subprocess.call` is not used; after the call
the script falls off its end and the interpreter exits with status 0.
If `subprocess.call` raises an `OSError` (missing or non-executable
script), the exception is uncaught: the interpreter prints the error to
standard error and exits with status 1.  If `args` were empty, the
assignment `args[0] = ...` would raise an uncaught `IndexError`.

The embedding makes the child-process interaction explicit: `spawn` is
the environment's behaviour of `subprocess.call` (either the child's exit
code or an OS error), and a `Run` records the argument vector actually
handed to `subprocess.call` (if any) together with the terminal event of
the Python process.
-/

namespace Moon

/-- Terminal event of the Python interpreter for one launcher run:
a normal exit with a status code (covers both falling off the end of the
script and `sys.exit()`), an uncaught `OSError` escaping from
`subprocess.call`, or an uncaught `IndexError` from the `args[0]`
assignment on an empty argument vector. -/
inductive PyEvent where
  | exited (code : Nat)
  | uncaughtOS (e : String)
  | uncaughtIndex
  deriving DecidableEq, Repr

/-- Process exit status the OS observes for each terminal event: a normal
exit keeps its code; an uncaught Python exception makes the interpreter
exit with status 1 (after printing a traceback). -/
def PyEvent.exitCode : PyEvent → Nat
  | .exited c => c
  | .uncaughtOS _ => 1
  | .uncaughtIndex => 1

/-- The OS error surfaced on the standard error stream, when the run ends
in an uncaught `OSError` (the interpreter prints the exception). -/
def PyEvent.stderrOSError : PyEvent → Option String
  | .uncaughtOS e => some e
  | _ => none

/-- One launcher run: the argument vector passed to `subprocess.call`
(`none` when the call is never reached) and the terminal event. -/
structure Run where
  childArgs : Option (List String)
  event : PyEvent
  deriving DecidableEq, Repr

/-- Script-path resolution of `src/build.py` (lines 8-13): `"win32"` maps
to the Windows batch file, `"linux"` and `"linux2"` map to the Linux shell
script, and any other platform identifier resolves to nothing (the script
calls `sys.exit()`). -/
def buildScript (platform : String) : Option String :=
  if platform = "win32" then
    some "platform-scripts\\windows\\build.bat"
  else if platform = "linux" ∨ platform = "linux2" then
    some "platform-scripts/linux/build.sh"
  else
    none

/-- Script-path resolution of `src/check.py` (lines 8-11): only `"linux"`
and `"linux2"` are recognised; every other platform identifier, including
`"win32"`, resolves to nothing (the script calls `sys.exit()`). -/
def checkScript (platform : String) : Option String :=
  if platform = "linux" ∨ platform = "linux2" then
    some "platform-scripts/linux/check.sh"
  else
    none

/-- The in-place assignment `args[0] = v` on a Python list: fails with an
`IndexError` on the empty list, otherwise replaces the head. -/
def setItem0 (args : List String) (v : String) : Option (List String) :=
  match args with
  | [] => none
  | _ :: rest => some (v :: rest)

/-- `subprocess.call(newArgs, cwd=".")` followed by the end of the script:
if the spawn succeeds its return value (the child's exit code) is
discarded and the interpreter exits 0; if it raises an `OSError` the
exception is uncaught. -/
def runCall (spawn : List String → Except String Nat) (newArgs : List String) : Run :=
  match spawn newArgs with
  | .ok _ => { childArgs := some newArgs, event := .exited 0 }
  | .error e => { childArgs := some newArgs, event := .uncaughtOS e }

/-- Common body of both launchers, parameterised by the resolved script
path: `sys.exit()` when resolution failed, otherwise the `args[0]`
assignment followed by `subprocess.call`. -/
def dispatchWith (script : Option String) (args : List String)
    (spawn : List String → Except String Nat) : Run :=
  match script with
  | none => { childArgs := none, event := .exited 0 }
  | some p =>
    match setItem0 args p with
    | none => { childArgs := none, event := .uncaughtIndex }
    | some newArgs => runCall spawn newArgs

/-- `src/build.py` as a whole, as a function of the platform identifier,
the incoming `sys.argv`, and the environment's `subprocess.call`
behaviour. -/
def dispatchBuild (platform : String) (args : List String)
    (spawn : List String → Except String Nat) : Run :=
  dispatchWith (buildScript platform) args spawn

/-- `src/check.py` as a whole, as a function of the platform identifier,
the incoming `sys.argv`, and the environment's `subprocess.call`
behaviour. -/
def dispatchCheck (platform : String) (args : List String)
    (spawn : List String → Except String Nat) : Run :=
  dispatchWith (checkScript platform) args spawn

end Moon

namespace Moon

/-- C1: the claim states the launcher's exit code equals the child's exit
code, but both launchers discard the return value of `subprocess.call`
and then exit 0.  At platform `"linux"` with a child that exits 1, both
`build.py` and `check.py` terminate with exit status 0, not 1. -/
theorem c1_exit_code_dropped :
    (dispatchBuild "linux" ["build"] (fun _ => Except.ok 1)).event = PyEvent.exited 0 ∧
    (dispatchCheck "linux" ["check"] (fun _ => Except.ok 1)).event = PyEvent.exited 0 ∧
    (dispatchBuild "linux" ["build"] (fun _ => Except.ok 1)).event.exitCode = 0 ∧
    (dispatchCheck "linux" ["check"] (fun _ => Except.ok 1)).event.exitCode = 0 := by
  refine ⟨rfl, rfl, rfl, rfl⟩

/-- C2: on a supported platform, when `subprocess.call` fails with an OS
error `e` (missing or non-executable script), both launchers terminate
with a non-zero exit status and the OS error is surfaced on standard
error; the run still ends in a well-defined process exit. -/
theorem c2_launch_failure (platform a : String) (rest : List String) (e : String) :
    ((buildScript platform).isSome →
      (dispatchBuild platform (a :: rest) (fun _ => Except.error e)).event.exitCode ≠ 0 ∧
      (dispatchBuild platform (a :: rest) (fun _ => Except.error e)).event.stderrOSError
        = some e) ∧
    ((checkScript platform).isSome →
      (dispatchCheck platform (a :: rest) (fun _ => Except.error e)).event.exitCode ≠ 0 ∧
      (dispatchCheck platform (a :: rest) (fun _ => Except.error e)).event.stderrOSError
        = some e) := by
  constructor
  · intro h
    obtain ⟨p, hp⟩ := Option.isSome_iff_exists.mp h
    simp [dispatchBuild, dispatchWith, hp, setItem0, runCall, PyEvent.exitCode,
      PyEvent.stderrOSError]
  · intro h
    obtain ⟨p, hp⟩ := Option.isSome_iff_exists.mp h
    simp [dispatchCheck, dispatchWith, hp, setItem0, runCall, PyEvent.exitCode,
      PyEvent.stderrOSError]

/-- Witness for C2 at platform `"linux"`, argv `["build"]` / `["check"]`,
OS error `"ENOENT"`. -/
theorem c2_launch_failure_witness :
    ((dispatchBuild "linux" ["build"] (fun _ => Except.error "ENOENT")).event.exitCode ≠ 0 ∧
      (dispatchBuild "linux" ["build"] (fun _ => Except.error "ENOENT")).event.stderrOSError
        = some "ENOENT") ∧
    ((dispatchCheck "linux" ["check"] (fun _ => Except.error "ENOENT")).event.exitCode ≠ 0 ∧
      (dispatchCheck "linux" ["check"] (fun _ => Except.error "ENOENT")).event.stderrOSError
        = some "ENOENT") :=
  ⟨(c2_launch_failure "linux" "build" [] "ENOENT").1 (by decide),
   (c2_launch_failure "linux" "check" [] "ENOENT").2 (by decide)⟩

/-- C3: on a supported platform, the argument vector handed to
`subprocess.call` is the resolved script path followed by the original
`args[1..]` unchanged, for both launchers. -/
theorem c3_args_preserved (platform a p : String) (rest : List String)
    (spawn : List String → Except String Nat) :
    (buildScript platform = some p →
      (dispatchBuild platform (a :: rest) spawn).childArgs = some (p :: rest)) ∧
    (checkScript platform = some p →
      (dispatchCheck platform (a :: rest) spawn).childArgs = some (p :: rest)) := by
  constructor
  · intro hp
    cases hs : spawn (p :: rest) <;>
      simp [dispatchBuild, dispatchWith, hp, setItem0, runCall, hs]
  · intro hp
    cases hs : spawn (p :: rest) <;>
      simp [dispatchCheck, dispatchWith, hp, setItem0, runCall, hs]

/-- Witness for C3 at platform `"linux"`, argv `["build", "--release"]`
and `["check", "--release"]`, with a child that exits 0. -/
theorem c3_args_preserved_witness :
    (dispatchBuild "linux" ["build", "--release"] (fun _ => Except.ok 0)).childArgs
      = some ["platform-scripts/linux/build.sh", "--release"] ∧
    (dispatchCheck "linux" ["check", "--release"] (fun _ => Except.ok 0)).childArgs
      = some ["platform-scripts/linux/check.sh", "--release"] :=
  ⟨(c3_args_preserved "linux" "build" "platform-scripts/linux/build.sh" ["--release"]
      (fun _ => Except.ok 0)).1 (by decide),
   (c3_args_preserved "linux" "check" "platform-scripts/linux/check.sh" ["--release"]
      (fun _ => Except.ok 0)).2 (by decide)⟩

/-- C4: on a platform identifier that is neither `"win32"` nor `"linux"`
nor `"linux2"`, both launchers reach `sys.exit()`: no argument vector is
passed to `subprocess.call` and the process exits with status 0. -/
theorem c4_unsupported_neutral (platform : String) (args : List String)
    (spawn : List String → Except String Nat)
    (h1 : platform ≠ "win32") (h2 : platform ≠ "linux") (h3 : platform ≠ "linux2") :
    dispatchBuild platform args spawn = { childArgs := none, event := PyEvent.exited 0 } ∧
    dispatchCheck platform args spawn = { childArgs := none, event := PyEvent.exited 0 } := by
  constructor
  · simp [dispatchBuild, dispatchWith, buildScript, h1, h2, h3]
  · simp [dispatchCheck, dispatchWith, checkScript, h2, h3]

/-- Witness for C4 at platform `"darwin"` with argv `["check"]`. -/
theorem c4_unsupported_neutral_witness :
    dispatchBuild "darwin" ["check"] (fun _ => Except.ok 0)
      = { childArgs := none, event := PyEvent.exited 0 } ∧
    dispatchCheck "darwin" ["check"] (fun _ => Except.ok 0)
      = { childArgs := none, event := PyEvent.exited 0 } :=
  c4_unsupported_neutral "darwin" ["check"] (fun _ => Except.ok 0)
    (by decide) (by decide) (by decide)

/-- C5: `build.py` resolves the Windows batch path (single backslashes)
on `"win32"` and the Linux shell path on `"linux"` and `"linux2"`, and
hands that path to `subprocess.call` as element 0. -/
theorem c5_build_paths :
    buildScript "win32" = some "platform-scripts\\windows\\build.bat" ∧
    buildScript "linux" = some "platform-scripts/linux/build.sh" ∧
    buildScript "linux2" = some "platform-scripts/linux/build.sh" ∧
    (dispatchBuild "win32" ["build"] (fun _ => Except.ok 0)).childArgs
      = some ["platform-scripts\\windows\\build.bat"] ∧
    (dispatchBuild "linux" ["build"] (fun _ => Except.ok 0)).childArgs
      = some ["platform-scripts/linux/build.sh"] := by
  refine ⟨by decide, by decide, by decide, rfl, rfl⟩

/-- C6: `check.py` on Linux resolves exactly
`platform-scripts/linux/check.sh` (which differs from
`utils/linux/check.sh`), and for every argv the child is invoked with
that path as element 0. -/
theorem c6_check_linux_path :
    checkScript "linux" = some "platform-scripts/linux/check.sh" ∧
    checkScript "linux2" = some "platform-scripts/linux/check.sh" ∧
    "platform-scripts/linux/check.sh" ≠ "utils/linux/check.sh" ∧
    ∀ (a : String) (rest : List String) (spawn : List String → Except String Nat),
      (dispatchCheck "linux" (a :: rest) spawn).childArgs
        = some ("platform-scripts/linux/check.sh" :: rest) := by
  refine ⟨by decide, by decide, by decide, ?_⟩
  intro a rest spawn
  unfold dispatchCheck dispatchWith checkScript setItem0 runCall
  simp only [String.reduceEq, or_false, if_false, if_true, reduceIte]
  cases spawn ("platform-scripts/linux/check.sh" :: rest) <;> rfl

/-- C7: `args[0]` is overwritten before it is ever read, so two argument
vectors that differ only in element 0 produce identical runs (same
resolved script, same child argument vector, same terminal event), on
every platform, for both launchers. -/
theorem c7_arg0_noninterference (platform a b : String) (rest : List String)
    (spawn : List String → Except String Nat) :
    dispatchBuild platform (a :: rest) spawn = dispatchBuild platform (b :: rest) spawn ∧
    dispatchCheck platform (a :: rest) spawn = dispatchCheck platform (b :: rest) spawn := by
  constructor
  · unfold dispatchBuild dispatchWith setItem0
    cases buildScript platform <;> rfl
  · unfold dispatchCheck dispatchWith setItem0
    cases checkScript platform <;> rfl

/-- C8: with a non-empty argument vector, the `args[0]` assignment is in
bounds on every platform branch, so neither launcher can end in an
uncaught `IndexError`; no other pre-spawn operation can fault. -/
theorem c8_nonempty_no_fault (platform : String) (args : List String)
    (spawn : List String → Except String Nat) (h : args ≠ []) :
    (dispatchBuild platform args spawn).event ≠ PyEvent.uncaughtIndex ∧
    (dispatchCheck platform args spawn).event ≠ PyEvent.uncaughtIndex := by
  obtain ⟨a, rest, rfl⟩ := List.exists_cons_of_ne_nil h
  constructor
  · cases hb : buildScript platform with
    | none => simp [dispatchBuild, dispatchWith, hb]
    | some p =>
      cases hs : spawn (p :: rest) <;>
        simp [dispatchBuild, dispatchWith, setItem0, runCall, hb, hs]
  · cases hc : checkScript platform with
    | none => simp [dispatchCheck, dispatchWith, hc]
    | some p =>
      cases hs : spawn (p :: rest) <;>
        simp [dispatchCheck, dispatchWith, setItem0, runCall, hc, hs]

/-- Witness for C8 at platform `"linux"` with argv `["build"]`. -/
theorem c8_nonempty_no_fault_witness :
    (dispatchBuild "linux" ["build"] (fun _ => Except.ok 0)).event ≠ PyEvent.uncaughtIndex ∧
    (dispatchCheck "linux" ["build"] (fun _ => Except.ok 0)).event ≠ PyEvent.uncaughtIndex :=
  c8_nonempty_no_fault "linux" ["build"] (fun _ => Except.ok 0) (by decide)

/-- C9: `check.py` does not recognise `"win32"`: for every argv it calls
`sys.exit()` without spawning a child and the process exits 0, whereas
`build.py` does resolve a script on `"win32"`. -/
theorem c9_check_win32_unsupported (args : List String)
    (spawn : List String → Except String Nat) :
    dispatchCheck "win32" args spawn = { childArgs := none, event := PyEvent.exited 0 } ∧
    checkScript "win32" = none ∧
    (buildScript "win32").isSome = true := by
  refine ⟨?_, by decide, by decide⟩
  unfold dispatchCheck dispatchWith checkScript
  simp

/-- C10: the platform identifiers `"linux"` and `"linux2"` are treated
identically by both launchers: the whole run (resolved script, child
argument vector, terminal event) coincides for every argv and every
child behaviour. -/
theorem c10_linux_linux2_equivalent (args : List String)
    (spawn : List String → Except String Nat) :
    dispatchBuild "linux" args spawn = dispatchBuild "linux2" args spawn ∧
    dispatchCheck "linux" args spawn = dispatchCheck "linux2" args spawn := by
  have hb : buildScript "linux" = buildScript "linux2" := by decide
  have hc : checkScript "linux" = checkScript "linux2" := by decide
  exact ⟨by rw [dispatchBuild, dispatchBuild, hb], by rw [dispatchCheck, dispatchCheck, hc]⟩

end Moon
